import Mathlib

/-!
# Verification of the tiktok-chef-backend extraction workflow and dedup cache

Shallow embedding of the repository's core (Python): the recipe data model
(`src/schema.py`), the two-node LangGraph workflow (`src/graph.py`,
`src/agent.py`, `src/tools.py`), the persistence layer over Supabase
(`src/crud.py`) and the `/extract` endpoint of `main.py`.

Modelling conventions:
* Python `None`-able values become `Option`; Python lists become `List`.
* The external inference collaborator (Gemini + video download in
  `src/tools.py:transcribe_recipe`) is opaque: it is a parameter
  `collab : Option String → InferenceOutcome` whose `err` constructor sums
  every failure mode that `extract_recipe_from_url` catches (download error,
  empty response, invalid JSON, schema mismatch — all re-raised as
  `RuntimeError` and caught by the tool's `except Exception`).
* Python floats are modelled as exact rationals (`Rat`); `float(str)`
  parsing is modelled by `pyFloat` over the decimal grammar (IEEE specials
  and digit underscores are outside the model; no claim depends on them).
* The Supabase store is a record of three row lists; inserted rows are
  appended, nested selects (`ingredients(*)`, `instructions(*)`) return rows
  in store order and freshly generated recipe ids are `max + 1` — the
  semantics of the repository's own mock store (`tests/conftest.py`).
* `AgentState.messages` (chat log only) and the wall-clock
  `processing_time` fields are omitted: no verified behaviour reads them.
* `is_valid_recipe` and `validation_errors` are not declared in
  `schema.py:AgentState`; `graph.py:validation_node` injects them through
  `model_copy(update=...)`, which sets undeclared keys without validation.
  They are modelled as `Option` fields that are absent in the initial state.
-/

/-- `STATUS` enum of `src/schema.py`. -/
inductive STATUS where
  | pending
  | running
  | failed
  | success
deriving DecidableEq, Repr

/-- `RecipeOverview` of `src/schema.py` (the `difficulty` literal is kept as a
plain optional string). -/
structure RecipeOverview where
  id : Option Int := none
  title : String
  prep_time : Option String := none
  cook_time : Option String := none
  servings : Int
  difficulty : Option String := none
  cuisine_type : Option String := none
deriving DecidableEq, Repr

/-- `Ingredient` of `src/schema.py`: `amount` is a display string. -/
structure Ingredient where
  item : String
  amount : String
  unit : Option String := none
  notes : Option String := none
deriving DecidableEq, Repr

/-- `Recipe` of `src/schema.py`. -/
structure Recipe where
  id : Option Int := none
  recipe_overview : RecipeOverview
  ingredients : List Ingredient
  instructions : List String
  equipment : Option (List String) := none
deriving DecidableEq, Repr

/-- `AgentState` of `src/schema.py` (see the module docstring for the
omitted `messages`/`processing_time` fields and the two injected
validation fields). -/
structure AgentState where
  video_url : Option String := none
  extracted_recipe : Option Recipe := none
  extraction_status : STATUS := .pending
  error_message : Option String := none
  retry_count : Nat := 0
  max_retries : Nat := 2
  number_of_steps : Nat := 0
  is_valid_recipe : Option Bool := none
  validation_errors : Option (List String) := none
deriving DecidableEq, Repr

/-- Outcome of one call to the opaque inference collaborator
(`transcribe_recipe` in `src/tools.py`): either a candidate `Recipe`, or an
exception whose `str(e)` is the carried message. -/
inductive InferenceOutcome where
  | ok (recipe : Recipe)
  | err (msg : String)

/-- The dict returned by the `extract_recipe_from_url` tool in
`src/tools.py`. -/
structure ToolResult where
  success : Bool
  recipe : Option Recipe
  error : Option String
deriving DecidableEq, Repr

/-- `extract_recipe_from_url` of `src/tools.py`: one call to the
collaborator inside `try/except Exception`; every raised error is folded
into `success=False` with `error=str(e)` — no exception escapes the tool. -/
def extract_recipe_from_url (collab : Option String → InferenceOutcome)
    (video_url : Option String) : ToolResult :=
  match collab video_url with
  | .ok r => { success := true, recipe := some r, error := none }
  | .err m => { success := false, recipe := none, error := some m }

/-- Result dict of the structural recipe validator as consumed by
`validation_node` (`validation_result["is_valid"]`,
`validation_result["error"]`). -/
structure ValidationResult where
  is_valid : Bool
  error : List String
deriving DecidableEq, Repr

/-- Modelled from the spec: `validate_recipe_structure` is imported by
`src/graph.py` from `src.tools` but its definition is missing from the
source tree.  Per spec §4.3 it re-checks structural conformance (required
title non-empty, `servings ≥ 1`; the shape of ingredients/instructions is
already enforced by the `Recipe` type) and reports findings as data. -/
def validate_recipe_structure (recipe_data : Recipe) : ValidationResult :=
  let errs :=
    (if recipe_data.recipe_overview.title = "" then ["title is required"] else []) ++
    (if recipe_data.recipe_overview.servings < 1 then ["servings must be at least 1"] else [])
  { is_valid := errs.isEmpty, error := errs }

/-- `url_extract_node` of `src/graph.py`: runs the extraction tool once and
maps its outcome onto the state by `model_copy`. -/
def url_extract_node (collab : Option String → InferenceOutcome)
    (state : AgentState) : AgentState :=
  let extraction_result := extract_recipe_from_url collab state.video_url
  if extraction_result.success then
    { state with
        extraction_status := .running
        extracted_recipe := extraction_result.recipe }
  else
    { state with
        extraction_status := .failed
        error_message := extraction_result.error }

/-- `validation_node` of `src/graph.py`: fails when no recipe is present
(a pydantic `Recipe` instance is always truthy, so `not recipe_data` is
exactly `is None`), otherwise records the validator's findings and sets
`status=success` regardless of the verdict. -/
def validation_node (state : AgentState) : AgentState :=
  match state.extracted_recipe with
  | none =>
      { state with
          extraction_status := .failed
          error_message := some "No recipe data to validate"
          is_valid_recipe := some false }
  | some recipe_data =>
      let validation_result := validate_recipe_structure recipe_data
      { state with
          extraction_status := .success
          is_valid_recipe := some validation_result.is_valid
          validation_errors := some validation_result.error }

/-- The initial `AgentState` built by `recipe_agent` in `src/agent.py`. -/
def initial_state (video_url : String) (max_retries : Nat) : AgentState :=
  { video_url := some video_url, max_retries := max_retries }

/-- The compiled graph of `create_agent_graph` (`src/graph.py`), with the
executed-step count instrumented: START → `video_analysis`; then
`route_after_extraction` sends `RUNNING` to `recipe_validation` and
everything else to END; `recipe_validation` always ends the run. -/
def run_workflow_aux (collab : Option String → InferenceOutcome)
    (video_url : String) (max_retries : Nat) : AgentState × Nat :=
  let s1 := url_extract_node collab (initial_state video_url max_retries)
  if s1.extraction_status = .running then (validation_node s1, 2) else (s1, 1)

/-- Terminal state of one workflow run (`graph.invoke` in `src/agent.py`). -/
def run_workflow (collab : Option String → InferenceOutcome)
    (video_url : String) (max_retries : Nat) : AgentState :=
  (run_workflow_aux collab video_url max_retries).1

/-- Number of workflow steps the run actually executed (1 when the run ends
after extraction, 2 when validation also ran). -/
def run_workflow_steps (collab : Option String → InferenceOutcome)
    (video_url : String) (max_retries : Nat) : Nat :=
  (run_workflow_aux collab video_url max_retries).2

/-- Digit run to natural number (helper for `pyFloat`). -/
def digitsToNat (ds : List Char) : Nat :=
  ds.foldl (fun n c => 10 * n + (c.toNat - Char.toNat '0')) 0

/-- Model of Python `str.strip()` (also of the whitespace stripping that
`float(str)` performs on its argument): drop whitespace from both ends. -/
def pyStrip (s : String) : String :=
  String.mk (((s.data.dropWhile Char.isWhitespace).reverse.dropWhile
    Char.isWhitespace).reverse)

/-- Exponent part of the `float(str)` grammar: optional sign then at least
one digit, ending the string; yields the exponent's sign flag and
magnitude (helper for `pyFloat`). -/
def pyFloatExp (cs : List Char) : Option (Bool × Nat) :=
  let signedTail : Bool × List Char :=
    match cs with
    | '+' :: rest => (false, rest)
    | '-' :: rest => (true, rest)
    | _ => (false, cs)
  let ed := signedTail.2.takeWhile Char.isDigit
  let rest := signedTail.2.dropWhile Char.isDigit
  if ed.isEmpty || !rest.isEmpty then none
  else some (signedTail.1, digitsToNat ed)

/-- Model of CPython `float(str)` on the decimal grammar: optional
surrounding whitespace, optional sign, digits with an optional fractional
part (at least one digit overall), optional `e`/`E` exponent.  Returns the
exact rational value, assembled with integer arithmetic only; `none`
models the `ValueError` branch.  (IEEE specials `inf`/`nan` and digit
underscores are outside the model.) -/
def pyFloat (s : String) : Option Rat :=
  let cs0 := (pyStrip s).data
  let signedTail : Int × List Char :=
    match cs0 with
    | '+' :: rest => (1, rest)
    | '-' :: rest => (-1, rest)
    | _ => (1, cs0)
  let sign := signedTail.1
  let cs1 := signedTail.2
  let ip := cs1.takeWhile Char.isDigit
  let cs2 := cs1.dropWhile Char.isDigit
  let fracTail : List Char × List Char :=
    match cs2 with
    | '.' :: rest => (rest.takeWhile Char.isDigit, rest.dropWhile Char.isDigit)
    | _ => ([], cs2)
  let fp := fracTail.1
  let cs3 := fracTail.2
  if ip.isEmpty && fp.isEmpty then none
  else
    let mant : Int := sign * (digitsToNat (ip ++ fp) : Int)
    match cs3 with
    | [] => some (mkRat mant (10 ^ fp.length))
    | 'e' :: rest =>
        (pyFloatExp rest).map (fun p =>
          if p.1 then mkRat mant (10 ^ (fp.length + p.2))
          else mkRat (mant * (10 : Int) ^ p.2) (10 ^ fp.length))
    | 'E' :: rest =>
        (pyFloatExp rest).map (fun p =>
          if p.1 then mkRat mant (10 ^ (fp.length + p.2))
          else mkRat (mant * (10 : Int) ^ p.2) (10 ^ fp.length))
    | _ => none

/-- Left-pad a natural number with zeros to `k` digits (helper for
`pyStrOfAmount`). -/
def natPad (n k : Nat) : String :=
  let s := toString n
  String.mk (List.replicate (k - s.length) '0') ++ s

/-- Model of Python `str()` applied to the stored numeric amount: exact
decimal rendering with at least one fractional digit (`str(200.0) ==
"200.0"`, `str(2.5) == "2.5"`).  Values needing scientific notation are
outside the model (the fallback arm is never reached by any claim). -/
def pyStrOfAmount (q : Rat) : String :=
  if q.den = 1 then toString q.num ++ ".0"
  else
    match (List.range 40).find? (fun k => (10 : Nat) ^ (k + 1) % q.den == 0) with
    | some k0 =>
        let k := k0 + 1
        let m := q.num * (((10 : Nat) ^ k / q.den : Nat) : Int)
        let sgn := if m < 0 then "-" else ""
        let a := m.natAbs
        sgn ++ toString (a / 10 ^ k) ++ "." ++ natPad (a % 10 ^ k) k
    | none => toString q.num ++ "/" ++ toString q.den

/-- A row of the `recipes` table (persisted shape of spec §6; the
`created_at`/`updated_at` timestamps are wall-clock and unread). -/
structure RecipeRow where
  id : Nat
  title : String
  source_url : Option String
  base_servings : Int
  prep_time : Option String
  cook_time : Option String
  difficulty : Option String
  cuisine_type : Option String
deriving DecidableEq, Repr

/-- A row of the `ingredients` table (the serial row id is never read by the
code under verification and is omitted). -/
structure IngredientRow where
  recipe_id : Nat
  name : String
  amount : Rat
  unit : Option String
  original_text : String
deriving DecidableEq, Repr

/-- A row of the `instructions` table (serial row id omitted, as above). -/
structure InstructionRow where
  recipe_id : Nat
  step_number : Nat
  instruction_text : String
deriving DecidableEq, Repr

/-- The persistence store: the three tables, rows in insertion order. -/
structure Store where
  recipes : List RecipeRow
  ingredients : List IngredientRow
  instructions : List InstructionRow
deriving DecidableEq, Repr

def emptyStore : Store := ⟨[], [], []⟩

/-- Id assigned to the next inserted recipe row: `max(existing) + 1`, `1` on
an empty table — the generation rule of the repository's mock store
(`tests/conftest.py`), modelling the serial column. -/
def nextRecipeId (store : Store) : Nat :=
  (store.recipes.map (·.id)).foldr max 0 + 1

/-- A recipe row joined with its nested `ingredients(*)` and
`instructions(*)` rows, as returned by the crud selects; nested rows come
back in store order. -/
structure DbRecipe where
  row : RecipeRow
  ingredients : List IngredientRow
  instructions : List InstructionRow
deriving DecidableEq, Repr

def joinRecipeRow (store : Store) (row : RecipeRow) : DbRecipe :=
  { row := row
    ingredients := store.ingredients.filter (fun i => i.recipe_id == row.id)
    instructions := store.instructions.filter (fun i => i.recipe_id == row.id) }

/-- `get_recipe_by_id` of `src/crud.py`: filter on `id`, first row joined,
`None` when nothing matches. -/
def get_recipe_by_id (store : Store) (recipe_id : Nat) : Option DbRecipe :=
  ((store.recipes.filter (fun r => r.id == recipe_id)).head?).map (joinRecipeRow store)

/-- `get_recipe_by_source_url` of `src/crud.py`: `.eq("source_url", url)`
(exact string equality; `NULL` never matches), `data[0]` when the result
set is non-empty, else `None`.  The store is threaded to make the
read-only nature of the select explicit. -/
def get_recipe_by_source_url (store : Store) (source_url : String) :
    Option DbRecipe × Store :=
  (((store.recipes.filter (fun r => r.source_url == some source_url)).head?).map
    (joinRecipeRow store), store)

/-- One entry of the `ingredients_batch` built by `create_recipe`:
best-effort `float()` of the display amount defaulting to `0.0`, plus the
reconstructed `original_text` (`f"{amount} {unit or ''} {item}".strip()`;
for strings, `x or ''` agrees with `Option.getD ""`). -/
def mkIngredientRow (recipe_id : Nat) (ing : Ingredient) : IngredientRow :=
  { recipe_id := recipe_id
    name := ing.item
    amount := (pyFloat ing.amount).getD 0
    unit := ing.unit
    original_text := pyStrip (ing.amount ++ " " ++ ing.unit.getD "" ++ " " ++ ing.item) }

/-- The `instructions_batch` of `create_recipe`: `enumerate(instructions, 1)`
assigns `step_number` by 1-based position. -/
def mkInstructionRows (recipe_id : Nat) (instructions : List String) :
    List InstructionRow :=
  (List.enumFrom 1 instructions).map
    (fun p => { recipe_id := recipe_id, step_number := p.1, instruction_text := p.2 })

/-- The `recipe_dict` inserted by `create_recipe` (with the id the store
assigns on insert). -/
def mkRecipeRow (recipe_id : Nat) (recipe_data : Recipe)
    (source_url : Option String) : RecipeRow :=
  { id := recipe_id
    title := recipe_data.recipe_overview.title
    source_url := source_url
    base_servings := recipe_data.recipe_overview.servings
    prep_time := recipe_data.recipe_overview.prep_time
    cook_time := recipe_data.recipe_overview.cook_time
    difficulty := recipe_data.recipe_overview.difficulty
    cuisine_type := recipe_data.recipe_overview.cuisine_type }

/-- `create_recipe` of `src/crud.py`: insert the recipe row, batch-insert
ingredients then instructions, and return `get_recipe_by_id` on the new id. -/
def create_recipe (store : Store) (recipe_data : Recipe)
    (source_url : Option String) : Option DbRecipe × Store :=
  let recipe_id := nextRecipeId store
  let recipe_row := mkRecipeRow recipe_id recipe_data source_url
  let s1 : Store := { store with recipes := store.recipes ++ [recipe_row] }
  let s2 : Store :=
    { s1 with ingredients := s1.ingredients ++ recipe_data.ingredients.map (mkIngredientRow recipe_id) }
  let s3 : Store :=
    { s2 with instructions := s2.instructions ++ mkInstructionRows recipe_id recipe_data.instructions }
  (get_recipe_by_id s3 recipe_id, s3)

/-- Stable insertion of an instruction row into a step-sorted list (helper
for `sortByStep`). -/
def insertByStep (x : InstructionRow) : List InstructionRow → List InstructionRow
  | [] => [x]
  | y :: ys =>
      if x.step_number ≤ y.step_number then x :: y :: ys else y :: insertByStep x ys

/-- Model of Python's stable `sorted(instructions, key=step_number)` used by
`recipe_to_schema` (insertion sort: stable, ascending — observationally the
same function). -/
def sortByStep : List InstructionRow → List InstructionRow
  | [] => []
  | x :: xs => insertByStep x (sortByStep xs)

/-- `recipe_to_schema` of `src/crud.py`: database dict back to the pydantic
`Recipe` (ingredients in store order, instructions sorted by
`step_number`, the new id copied to both the overview and the top level). -/
def recipe_to_schema (db_recipe : DbRecipe) : Recipe :=
  let ingredients := db_recipe.ingredients.map (fun ing =>
    { item := ing.name
      amount := pyStrOfAmount ing.amount
      unit := ing.unit
      notes := some ing.original_text : Ingredient })
  let sorted_instructions := sortByStep db_recipe.instructions
  { id := some (db_recipe.row.id : Int)
    recipe_overview :=
      { id := some (db_recipe.row.id : Int)
        title := db_recipe.row.title
        prep_time := db_recipe.row.prep_time
        cook_time := db_recipe.row.cook_time
        servings := db_recipe.row.base_servings
        difficulty := db_recipe.row.difficulty
        cuisine_type := db_recipe.row.cuisine_type }
    ingredients := ingredients
    instructions := sorted_instructions.map (·.instruction_text)
    equipment := none }

/-- Character class `[a-zA-Z0-9._]` of the username pattern in
`src/utils.py`. -/
def isUserChar (c : Char) : Bool :=
  c.isAlphanum || c == '.' || c == '_'

/-- Scan for the first occurrence of the pattern `/@([a-zA-Z0-9._]+)` (the
left-to-right search of `re.search` in `extract_tiktok_username`): the
first `/@` followed by at least one class character matches, capturing the
maximal class-character run. -/
def scanUser : List Char → Option (List Char)
  | [] => none
  | c :: rest =>
      match c, rest with
      | '/', '@' :: c2 :: rest2 =>
          if isUserChar c2 then some (c2 :: rest2.takeWhile isUserChar)
          else scanUser rest
      | _, _ => scanUser rest

/-- `extract_tiktok_username` of `src/utils.py`. -/
def extract_tiktok_username (url : String) : Option String :=
  if url = "" then none
  else (scanUser url.toList).map String.mk

/-- The dict returned by `recipe_agent` in `src/agent.py`. -/
structure AgentResult where
  success : Bool
  recipe : Option Recipe
  steps : Nat
  is_valid : Option Bool
  errors : Option (List String)
deriving DecidableEq, Repr

/-- `recipe_agent` of `src/agent.py`: one graph run from the fresh initial
state, repackaged for the endpoint. -/
def recipe_agent (collab : Option String → InferenceOutcome)
    (video_url : String) (max_retries : Nat) : AgentResult :=
  let result := run_workflow collab video_url max_retries
  { success := result.extraction_status == .success
    recipe := result.extracted_recipe
    steps := result.number_of_steps
    is_valid := result.is_valid_recipe
    errors := result.validation_errors }

/-- The `metadata` dict of the extraction response (`main.py`): the cached
path carries `steps`/`cached`/`database_id` only, so the two agent keys are
modelled as absent (`none`) there. -/
structure ExtractMetadata where
  steps : Nat
  is_valid : Option Bool
  errors : Option (List String)
  cached : Bool
  database_id : Option Nat
deriving DecidableEq, Repr

/-- `RecipeExtractionResponse` of `src/schema.py` (wall-clock
`processing_time` omitted). -/
structure RecipeExtractionResponse where
  success : Bool
  recipe : Option Recipe
  metadata : ExtractMetadata
deriving DecidableEq, Repr

/-- The error envelope raised as HTTP 500 by `main.py` (`ErrorResponse`
details; wall-clock `processing_time` omitted). -/
structure ErrorDetail where
  error : String
  video_url : String
  original_error : String
deriving DecidableEq, Repr

/-- `str(e)` of the pydantic `ValueError` raised when `main.py` assigns the
undeclared `creator_username` attribute on `RecipeOverview`
(`schema.py` declares no such field, and pydantic v2 rejects setting
unknown attributes). -/
def pydanticNoFieldError : String :=
  "\x22RecipeOverview\x22 object has no field \x22creator_username\x22"

/-- The `/extract` endpoint of `main.py`.  Returns the outcome (normal
response or 500 error envelope), the resulting store, and the number of
inference-collaborator invocations (0 on the cached path; the miss path
runs the workflow, whose single `url_extract_node` step calls the
collaborator exactly once).

On a hit: the persisted recipe is converted and returned with
`cached=True` and the persisted id; the workflow never runs.  On a miss:
the agent runs, `cached=False` and `database_id=None` are recorded, and —
when the URL contains a `/@username` segment and a recipe was extracted —
the attribute assignment on `recipe_overview` raises, landing in the
generic handler.  No path writes to the store. -/
def extract_recipe (collab : Option String → InferenceOutcome) (store : Store)
    (video_url : String) (max_retries : Nat) :
    Except ErrorDetail RecipeExtractionResponse × Store × Nat :=
  let looked := get_recipe_by_source_url store video_url
  match looked.1 with
  | some existing_recipe =>
      (.ok { success := true
             recipe := some (recipe_to_schema existing_recipe)
             metadata :=
               { steps := 0, is_valid := none, errors := none
                 cached := true, database_id := some existing_recipe.row.id } },
       looked.2, 0)
  | none =>
      let result := recipe_agent collab video_url max_retries
      let metadata : ExtractMetadata :=
        { steps := result.steps, is_valid := result.is_valid, errors := result.errors
          cached := false, database_id := none }
      match extract_tiktok_username video_url, result.recipe with
      | some _, some _ =>
          (.error { error := "Failed to extract recipe"
                    video_url := video_url
                    original_error := pydanticNoFieldError }, looked.2, 1)
      | _, _ =>
          (.ok { success := result.success
                 recipe := result.recipe
                 metadata := metadata }, looked.2, 1)

/-! ## Concrete fixtures and helper lemmas -/

/-- A concrete candidate recipe used for concrete instantiations. -/
def sampleRecipe : Recipe :=
  { recipe_overview := { title := "Rice Bowl", servings := 2 }
    ingredients := [{ item := "Rice", amount := "1", unit := some "cup" },
                    { item := "Soy Sauce", amount := "abc" }]
    instructions := ["Cook rice", "Add soy sauce", "Serve hot"] }

/-- A recipe failing the structural check (empty title). -/
def invalidRecipe : Recipe :=
  { recipe_overview := { title := "", servings := 2 }
    ingredients := []
    instructions := [] }

/-- A collaborator that always extracts `sampleRecipe`. -/
def collabOkW : Option String → InferenceOutcome := fun _ => .ok sampleRecipe

/-- A collaborator that always fails with an unparseable payload. -/
def collabErrW : Option String → InferenceOutcome :=
  fun _ => .err "Gemini returned invalid JSON"

theorem head?_mem {α : Type} {l : List α} {x : α} (h : l.head? = some x) : x ∈ l := by
  cases l <;> simp_all

theorem find?_eq_head?_filter {α : Type} (p : α → Bool) (l : List α) :
    l.find? p = (l.filter p).head? := by
  induction l with
  | nil => rfl
  | cons a l ih =>
      cases h : p a with
      | true => rw [List.find?_cons_of_pos l h, List.filter_cons_of_pos h]; rfl
      | false =>
          rw [List.find?_cons_of_neg l (by simp [h]), List.filter_cons_of_neg (by simp [h]), ih]

theorem mem_le_foldr_max (l : List Nat) (x : Nat) (h : x ∈ l) :
    x ≤ l.foldr max 0 := by
  induction l with
  | nil => cases h
  | cons a l ih =>
      rcases List.mem_cons.mp h with rfl | h
      · exact le_max_left _ _
      · exact le_trans (ih h) (le_max_right _ _)

/-! ## Claim theorems -/

/-- C3: for every input URL and collaborator outcome, the workflow run ends
with status `failed` or `success` (never `pending`/`running`); the run
starts at `pending`, the extraction step moves to `running` or `failed`,
a `failed` extraction ends the run with no further step, and a `running`
extraction is followed exactly by the validation step. -/
theorem workflow_terminal_status (collab : Option String → InferenceOutcome)
    (url : String) (mr : Nat) :
    (initial_state url mr).extraction_status = STATUS.pending ∧
    ((url_extract_node collab (initial_state url mr)).extraction_status = STATUS.running ∨
     (url_extract_node collab (initial_state url mr)).extraction_status = STATUS.failed) ∧
    ((url_extract_node collab (initial_state url mr)).extraction_status = STATUS.failed →
      run_workflow collab url mr = url_extract_node collab (initial_state url mr)) ∧
    ((url_extract_node collab (initial_state url mr)).extraction_status = STATUS.running →
      run_workflow collab url mr = validation_node (url_extract_node collab (initial_state url mr))) ∧
    ((run_workflow collab url mr).extraction_status = STATUS.failed ∨
     (run_workflow collab url mr).extraction_status = STATUS.success) := by
  cases h : collab (some url) with
  | ok r =>
      simp [run_workflow, run_workflow_aux, url_extract_node, extract_recipe_from_url, h,
        initial_state, validation_node]
  | err m =>
      simp [run_workflow, run_workflow_aux, url_extract_node, extract_recipe_from_url, h,
        initial_state, validation_node]

/-- C3 witness: with a failing collaborator the run ends right after the
extraction step, in the `failed` terminal status. -/
theorem workflow_terminal_status_witness :
    run_workflow collabErrW "https://example.com/b" 2 =
      url_extract_node collabErrW (initial_state "https://example.com/b" 2) ∧
    (run_workflow collabErrW "https://example.com/b" 2).extraction_status = STATUS.failed :=
  ⟨(workflow_terminal_status collabErrW "https://example.com/b" 2).2.2.1 rfl, rfl⟩

/-- C4 counterexample: on a state with no extracted recipe the validation
step records the message `"No recipe data to validate"` (capital `N`), not
the claimed `"no recipe data to validate"`. -/
theorem validation_message_counterexample :
    (validation_node ({} : AgentState)).error_message = some "No recipe data to validate" ∧
    (validation_node ({} : AgentState)).error_message ≠ some "no recipe data to validate" := by
  exact ⟨rfl, by decide⟩

/-- C4 (amended): with `extracted_recipe` absent, `validation_node` returns
`status=failed`, `is_valid_recipe=false` and
`error_message="No recipe data to validate"`; with a recipe present it
always returns `status=success`, with `is_valid_recipe` and
`validation_errors` taken from the structural check, whatever its verdict. -/
theorem validation_node_spec (state : AgentState) :
    (state.extracted_recipe = none →
      (validation_node state).extraction_status = STATUS.failed ∧
      (validation_node state).is_valid_recipe = some false ∧
      (validation_node state).error_message = some "No recipe data to validate") ∧
    (∀ r, state.extracted_recipe = some r →
      (validation_node state).extraction_status = STATUS.success ∧
      (validation_node state).is_valid_recipe = some (validate_recipe_structure r).is_valid ∧
      (validation_node state).validation_errors = some (validate_recipe_structure r).error) := by
  cases h : state.extracted_recipe <;> simp [validation_node, h]

/-- C4 witness: the absent-recipe path fails, while an invalid recipe
(empty title) still yields `status=success` with `is_valid_recipe=false`. -/
theorem validation_node_spec_witness :
    (validation_node ({} : AgentState)).extraction_status = STATUS.failed ∧
    (validation_node { extracted_recipe := some invalidRecipe }).extraction_status =
      STATUS.success ∧
    (validation_node { extracted_recipe := some invalidRecipe }).is_valid_recipe =
      some false := by
  refine ⟨((validation_node_spec ({} : AgentState)).1 rfl).1,
    ((validation_node_spec _).2 invalidRecipe rfl).1, ?_⟩
  exact (((validation_node_spec { extracted_recipe := some invalidRecipe }).2
    invalidRecipe rfl).2.1).trans (by decide)

/-- C5: whenever the collaborator fails — with any reason string, covering a
raised error, empty response, unparseable payload, or schema mismatch, all
of which `extract_recipe_from_url` folds into `err` — the workflow run
returns a state (no exception crosses the boundary) with `status=failed`,
`error_message` carrying the reason, and no extracted recipe. -/
theorem extraction_failure_encoded (collab : Option String → InferenceOutcome)
    (url : String) (mr : Nat) (msg : String) (h : collab (some url) = .err msg) :
    (run_workflow collab url mr).extraction_status = STATUS.failed ∧
    (run_workflow collab url mr).error_message = some msg ∧
    (run_workflow collab url mr).extracted_recipe = none := by
  simp [run_workflow, run_workflow_aux, url_extract_node, extract_recipe_from_url, h,
    initial_state]

/-- C5 witness at a collaborator that reports an unparseable payload. -/
theorem extraction_failure_encoded_witness :
    (run_workflow collabErrW "https://example.com/b" 2).extraction_status = STATUS.failed ∧
    (run_workflow collabErrW "https://example.com/b" 2).error_message =
      some "Gemini returned invalid JSON" ∧
    (run_workflow collabErrW "https://example.com/b" 2).extracted_recipe = none :=
  extraction_failure_encoded collabErrW "https://example.com/b" 2
    "Gemini returned invalid JSON" rfl

/-- C6: neither workflow step reads or writes `retry_count`/`max_retries`:
both fields pass through each step unchanged, the run starts and ends with
`retry_count = 0` and the caller's `max_retries`, and
`retry_count ≤ max_retries` holds before and after. -/
theorem retry_fields_inert (collab : Option String → InferenceOutcome)
    (state : AgentState) (url : String) (mr : Nat) :
    (url_extract_node collab state).retry_count = state.retry_count ∧
    (url_extract_node collab state).max_retries = state.max_retries ∧
    (validation_node state).retry_count = state.retry_count ∧
    (validation_node state).max_retries = state.max_retries ∧
    (initial_state url mr).retry_count = 0 ∧
    (initial_state url mr).retry_count ≤ (initial_state url mr).max_retries ∧
    (run_workflow collab url mr).retry_count = 0 ∧
    (run_workflow collab url mr).max_retries = mr ∧
    (run_workflow collab url mr).retry_count ≤ (run_workflow collab url mr).max_retries := by
  refine ⟨?_, ?_, ?_, ?_, rfl, Nat.zero_le _, ?_, ?_, ?_⟩
  · cases h : collab state.video_url <;>
      simp [url_extract_node, extract_recipe_from_url, h]
  · cases h : collab state.video_url <;>
      simp [url_extract_node, extract_recipe_from_url, h]
  · cases h : state.extracted_recipe <;> simp [validation_node, h]
  · cases h : state.extracted_recipe <;> simp [validation_node, h]
  · cases h : collab (some url) <;>
      simp [run_workflow, run_workflow_aux, url_extract_node, extract_recipe_from_url, h,
        initial_state, validation_node]
  · cases h : collab (some url) <;>
      simp [run_workflow, run_workflow_aux, url_extract_node, extract_recipe_from_url, h,
        initial_state, validation_node]
  · cases h : collab (some url) <;>
      simp [run_workflow, run_workflow_aux, url_extract_node, extract_recipe_from_url, h,
        initial_state, validation_node]


/-- On a dedup miss, the `/extract` endpoint leaves the store untouched,
makes exactly one inference call, and returns either the 500 envelope (the
pydantic attribute-assignment failure) or the agent's result repackaged
with `cached=false` and `database_id=none`. -/
theorem extract_recipe_miss_cases (collab : Option String → InferenceOutcome)
    (store : Store) (url : String) (mr : Nat)
    (h : (get_recipe_by_source_url store url).1 = none) :
    extract_recipe collab store url mr =
      (Except.error { error := "Failed to extract recipe", video_url := url
                      original_error := pydanticNoFieldError }, store, 1) ∨
    extract_recipe collab store url mr =
      (Except.ok { success := (recipe_agent collab url mr).success
                   recipe := (recipe_agent collab url mr).recipe
                   metadata :=
                     { steps := (recipe_agent collab url mr).steps
                       is_valid := (recipe_agent collab url mr).is_valid
                       errors := (recipe_agent collab url mr).errors
                       cached := false, database_id := none } }, store, 1) := by
  simp only [extract_recipe]
  rw [h]
  split
  · exact Option.noConfusion (by assumption)
  · split
    · exact Or.inl rfl
    · exact Or.inr rfl

/-- The concrete non-cached response of a successful run extracting
`sampleRecipe` (used by concrete instantiations). -/
def respOkA : RecipeExtractionResponse :=
  { success := true
    recipe := some sampleRecipe
    metadata :=
      { steps := 0, is_valid := some true, errors := some []
        cached := false, database_id := none } }

/-- The concrete non-cached response of a failed run (used by concrete
instantiations). -/
def respErrB : RecipeExtractionResponse :=
  { success := false
    recipe := none
    metadata :=
      { steps := 0, is_valid := none, errors := none
        cached := false, database_id := none } }

/-- C9 counterexample: a successful run executes two workflow steps, yet
`number_of_steps` in the terminal state is still 0 (no node increments
it), and the non-cached extract result surfaces that 0 as
`metadata.steps`. -/
theorem number_of_steps_counterexample :
    run_workflow_steps collabOkW "https://example.com/a" 2 = 2 ∧
    (run_workflow collabOkW "https://example.com/a" 2).number_of_steps = 0 ∧
    (recipe_agent collabOkW "https://example.com/a" 2).steps = 0 ∧
    (extract_recipe collabOkW emptyStore "https://example.com/a" 2).1 =
      Except.ok respOkA ∧
    respOkA.metadata.steps = 0 := by
  exact ⟨rfl, rfl, rfl, rfl, rfl⟩

/-- C9 (amended): `number_of_steps` keeps its initial value 0 after every
workflow run — no step increments it, whatever the collaborator does — and
this constant 0 is what `metadata.steps` surfaces for every non-cached
extract response. -/
theorem number_of_steps_constant (collab : Option String → InferenceOutcome)
    (url : String) (mr : Nat) :
    (run_workflow collab url mr).number_of_steps = 0 ∧
    (recipe_agent collab url mr).steps = 0 ∧
    ∀ store resp, (get_recipe_by_source_url store url).1 = none →
      (extract_recipe collab store url mr).1 = Except.ok resp →
      resp.metadata.steps = 0 := by
  have hrun : (run_workflow collab url mr).number_of_steps = 0 := by
    cases h : collab (some url) <;>
      simp [run_workflow, run_workflow_aux, url_extract_node, extract_recipe_from_url, h,
        initial_state, validation_node]
  refine ⟨hrun, by simpa [recipe_agent] using hrun, ?_⟩
  intro store resp h1 h2
  rcases extract_recipe_miss_cases collab store url mr h1 with hc | hc
  · rw [hc] at h2
    exact absurd h2 (by simp)
  · rw [hc] at h2
    simp only [Except.ok.injEq] at h2
    rw [← h2]
    simpa [recipe_agent] using hrun

/-- C9 amended witness: a failing run still reports `metadata.steps = 0`. -/
theorem number_of_steps_constant_witness :
    (extract_recipe collabErrW emptyStore "https://example.com/b" 2).1 =
      Except.ok respErrB ∧
    respErrB.metadata.steps = 0 :=
  ⟨rfl, (number_of_steps_constant collabErrW "https://example.com/b" 2).2.2
    emptyStore respErrB rfl rfl⟩

/-- C1 counterexample (spec Scenario A): extracting `https://example.com/a`
on the empty store with a succeeding collaborator reaches the terminal
state `success`, yet the store afterwards still holds no recipe row and
the response metadata carries `database_id = none` — nothing is persisted
and no identifier is assigned, contrary to the claim. -/
theorem extract_no_persist_counterexample :
    (run_workflow collabOkW "https://example.com/a" 2).extraction_status = STATUS.success ∧
    (extract_recipe collabOkW emptyStore "https://example.com/a" 2).2.1.recipes = [] ∧
    (extract_recipe collabOkW emptyStore "https://example.com/a" 2).1 =
      Except.ok respOkA ∧
    respOkA.success = true ∧
    respOkA.metadata.cached = false ∧
    respOkA.metadata.database_id = none := by
  exact ⟨rfl, rfl, rfl, rfl, rfl, rfl⟩

/-- C1 (amended): on a dedup-cache miss the extract operation never writes
to the store, whatever the terminal state of the workflow run; a normal
(non-error) response always carries `cached = false` and
`database_id = none` — the extract path persists nothing and assigns no
identifier.  (On `failed` terminal states nothing is persisted, as the
claim says; the correction is that nothing is persisted on `success`
either.) -/
theorem extract_miss_never_persists (collab : Option String → InferenceOutcome)
    (store : Store) (url : String) (mr : Nat)
    (h : (get_recipe_by_source_url store url).1 = none) :
    (extract_recipe collab store url mr).2.1 = store ∧
    (extract_recipe collab store url mr).2.2 = 1 ∧
    ∀ resp, (extract_recipe collab store url mr).1 = Except.ok resp →
      resp.metadata.cached = false ∧ resp.metadata.database_id = none := by
  rcases extract_recipe_miss_cases collab store url mr h with hc | hc <;> rw [hc]
  · exact ⟨rfl, rfl, fun resp hr => absurd hr (by simp)⟩
  · refine ⟨rfl, rfl, fun resp hr => ?_⟩
    simp only [Except.ok.injEq] at hr
    rw [← hr]
    exact ⟨rfl, rfl⟩

/-- C1 amended witness: concrete miss on the empty store with a failing
collaborator — store unchanged, one inference call, `cached = false` and
`database_id = none`. -/
theorem extract_miss_never_persists_witness :
    (extract_recipe collabErrW emptyStore "https://example.com/b" 2).2.1 = emptyStore ∧
    (extract_recipe collabErrW emptyStore "https://example.com/b" 2).2.2 = 1 ∧
    (extract_recipe collabErrW emptyStore "https://example.com/b" 2).1 =
      Except.ok respErrB ∧
    respErrB.metadata.cached = false ∧
    respErrB.metadata.database_id = none := by
  have h := extract_miss_never_persists collabErrW emptyStore "https://example.com/b" 2 rfl
  exact ⟨h.1, h.2.1, rfl, (h.2.2 respErrB rfl).1, (h.2.2 respErrB rfl).2⟩

/-- A persisted recipe row for `https://example.com/a`. -/
def rowA1 : RecipeRow :=
  { id := 1, title := "Rice Bowl", source_url := some "https://example.com/a"
    base_servings := 2, prep_time := none, cook_time := none
    difficulty := none, cuisine_type := none }

/-- A store holding exactly `rowA1`. -/
def oneRowStore : Store := ⟨[rowA1], [], []⟩

/-- A store holding two rows for the same source URL (ids 1 and 2) — the
duplicate situation reachable because lookup-then-insert is not atomic. -/
def dupStore : Store := ⟨[rowA1, { rowA1 with id := 2 }], [], []⟩

/-- On a dedup hit, the `/extract` endpoint short-circuits: cached response,
store untouched, zero inference calls (helper shared by the hit theorems). -/
theorem extract_recipe_hit (collab : Option String → InferenceOutcome)
    (store : Store) (url : String) (mr : Nat) (db : DbRecipe)
    (h : (get_recipe_by_source_url store url).1 = some db) :
    extract_recipe collab store url mr =
      (Except.ok { success := true
                   recipe := some (recipe_to_schema db)
                   metadata :=
                     { steps := 0, is_valid := none, errors := none
                       cached := true, database_id := some db.row.id } }, store, 0) := by
  simp only [extract_recipe]
  rw [h]
  rfl

/-- C2: the dedup lookup matches on exact string equality of `source_url`
(so the matched row always carries exactly the requested URL), and on a
hit the endpoint answers with the persisted recipe converted back to the
schema, `cached=true` and the persisted id, without invoking the workflow:
the store is unchanged, zero inference calls are made, and the whole
result is independent of the collaborator. -/
theorem extract_cache_hit (collab : Option String → InferenceOutcome)
    (store : Store) (url : String) (mr : Nat) (db : DbRecipe)
    (h : (get_recipe_by_source_url store url).1 = some db) :
    (extract_recipe collab store url mr).1 =
      Except.ok { success := true
                  recipe := some (recipe_to_schema db)
                  metadata :=
                    { steps := 0, is_valid := none, errors := none
                      cached := true, database_id := some db.row.id } } ∧
    (extract_recipe collab store url mr).2.1 = store ∧
    (extract_recipe collab store url mr).2.2 = 0 ∧
    (∀ collab2, extract_recipe collab2 store url mr = extract_recipe collab store url mr) ∧
    db.row.source_url = some url := by
  refine ⟨by rw [extract_recipe_hit collab store url mr db h],
    by rw [extract_recipe_hit collab store url mr db h],
    by rw [extract_recipe_hit collab store url mr db h],
    fun collab2 => (extract_recipe_hit collab2 store url mr db h).trans
      (extract_recipe_hit collab store url mr db h).symm, ?_⟩
  obtain ⟨row, hhead, hjoin⟩ := Option.map_eq_some'.mp h
  have hmem := head?_mem hhead
  have hp := (List.mem_filter.mp hmem).2
  rw [← hjoin]
  simpa using hp

/-- C2 witness: a store holding `https://example.com/a` hits on exactly that
URL (cached response, no inference call), while the same URL with a
trailing slash or a query parameter misses — no normalization. -/
theorem extract_cache_hit_witness :
    (extract_recipe collabErrW oneRowStore "https://example.com/a" 2).1 =
      Except.ok { success := true
                  recipe := some (recipe_to_schema (joinRecipeRow oneRowStore rowA1))
                  metadata :=
                    { steps := 0, is_valid := none, errors := none
                      cached := true, database_id := some 1 } } ∧
    (extract_recipe collabErrW oneRowStore "https://example.com/a" 2).2.2 = 0 ∧
    (joinRecipeRow oneRowStore rowA1).row.source_url = some "https://example.com/a" ∧
    (get_recipe_by_source_url oneRowStore "https://example.com/a/").1 = none ∧
    (get_recipe_by_source_url oneRowStore "https://example.com/a?utm=1").1 = none := by
  have h := extract_cache_hit collabErrW oneRowStore "https://example.com/a" 2
    (joinRecipeRow oneRowStore rowA1) rfl
  exact ⟨h.1, h.2.2.1, h.2.2.2.2, rfl, rfl⟩

/-- C10: the dedup lookup is read-only (the store comes back unchanged);
it returns `none` exactly when no persisted row carries the queried
`source_url`; and when rows match — duplicates included — it returns the
first matching row in store order, joined with exactly that row's
ingredient and instruction rows. -/
theorem lookup_first_match (store : Store) (url : String) :
    (get_recipe_by_source_url store url).2 = store ∧
    ((get_recipe_by_source_url store url).1 = none ↔
      ∀ r ∈ store.recipes, r.source_url ≠ some url) ∧
    ∀ db, (get_recipe_by_source_url store url).1 = some db →
      store.recipes.find? (fun r => r.source_url == some url) = some db.row ∧
      db.row.source_url = some url ∧
      db.ingredients = store.ingredients.filter (fun i => i.recipe_id == db.row.id) ∧
      db.instructions = store.instructions.filter (fun i => i.recipe_id == db.row.id) := by
  refine ⟨rfl, ?_, ?_⟩
  · simp [get_recipe_by_source_url, Option.map_eq_none', List.head?_eq_none_iff,
      List.filter_eq_nil_iff]
  · intro db h
    obtain ⟨row, hhead, hjoin⟩ := Option.map_eq_some'.mp h
    subst hjoin
    have hmem := head?_mem hhead
    have hp := (List.mem_filter.mp hmem).2
    exact ⟨(find?_eq_head?_filter _ store.recipes).trans hhead, by simpa using hp, rfl, rfl⟩

/-- C10 witness: with two persisted rows for the same URL (ids 1 and 2, the
reachable duplicate situation), the lookup returns the first row in store
order, read-only. -/
theorem lookup_first_match_witness :
    (get_recipe_by_source_url dupStore "https://example.com/a").2 = dupStore ∧
    (get_recipe_by_source_url dupStore "https://example.com/a").1 =
      some (joinRecipeRow dupStore rowA1) ∧
    dupStore.recipes.find? (fun r => r.source_url == some "https://example.com/a") =
      some rowA1 ∧
    (get_recipe_by_source_url dupStore "https://example.com/nope").1 = none := by
  have h := (lookup_first_match dupStore "https://example.com/a").2.2
    (joinRecipeRow dupStore rowA1) rfl
  exact ⟨rfl, rfl, h.1, rfl⟩

/-- Referential integrity of the store: every ingredient and instruction row
points at an existing recipe row (maintained by the cascade-delete design;
hypothesis of the round-trip theorem). -/
def Store.WF (store : Store) : Prop :=
  (∀ ing ∈ store.ingredients, ∃ rr ∈ store.recipes, rr.id = ing.recipe_id) ∧
  (∀ ins ∈ store.instructions, ∃ rr ∈ store.recipes, rr.id = ins.recipe_id)

/-- Every persisted recipe id is strictly below the next assigned id. -/
theorem recipeId_lt_next (store : Store) (row : RecipeRow) (h : row ∈ store.recipes) :
    row.id < nextRecipeId store :=
  Nat.lt_succ_of_le (mem_le_foldr_max _ _ (List.mem_map_of_mem (·.id) h))

/-- A list of instruction rows with consecutive step numbers is a fixpoint
of the stable sort. -/
theorem sortByStep_enumFrom (rid k : Nat) (l : List String) :
    sortByStep ((List.enumFrom k l).map
      (fun p => { recipe_id := rid, step_number := p.1, instruction_text := p.2 })) =
    (List.enumFrom k l).map
      (fun p => { recipe_id := rid, step_number := p.1, instruction_text := p.2 }) := by
  induction l generalizing k with
  | nil => rfl
  | cons t ts ih =>
      cases ts with
      | nil => rfl
      | cons t2 ts2 =>
          have h2 := ih (k + 1)
          simp only [List.enumFrom, List.map, sortByStep] at h2 ⊢
          rw [h2]
          simp [insertByStep, Nat.le_succ]

theorem sortByStep_mkInstructionRows (rid : Nat) (l : List String) :
    sortByStep (mkInstructionRows rid l) = mkInstructionRows rid l := by
  simpa [mkInstructionRows] using sortByStep_enumFrom rid 1 l

theorem mkInstructionRows_texts (rid : Nat) (l : List String) :
    (mkInstructionRows rid l).map (fun i => i.instruction_text) = l := by
  simp only [mkInstructionRows, List.map_map]
  exact List.enumFrom_map_snd 1 l

theorem mkInstructionRows_steps (rid : Nat) (l : List String) :
    (mkInstructionRows rid l).map (fun i => i.step_number) = List.range' 1 l.length := by
  simp only [mkInstructionRows, List.map_map]
  exact List.enumFrom_map_fst 1 l

/-- C7: persisting any `Recipe` into any referentially-intact store and
reading it back by its freshly assigned id reproduces the instructions in
their original order, the ingredients in their original order (witnessed
by the item names), and assigns `step_number` 1, 2, … by position —
strictly ascending from 1. -/
theorem roundtrip_preserves_order (store : Store) (r : Recipe) (src : Option String)
    (hwf : Store.WF store) :
    ∃ db, (create_recipe store r src).1 = some db ∧
      get_recipe_by_id (create_recipe store r src).2 (nextRecipeId store) = some db ∧
      (recipe_to_schema db).instructions = r.instructions ∧
      (recipe_to_schema db).ingredients.map (fun i => i.item) =
        r.ingredients.map (fun i => i.item) ∧
      db.instructions.map (fun i => i.step_number) =
        List.range' 1 r.instructions.length := by
  have hrec : (create_recipe store r src).2.recipes =
      store.recipes ++ [mkRecipeRow (nextRecipeId store) r src] := rfl
  have hing : (create_recipe store r src).2.ingredients =
      store.ingredients ++ r.ingredients.map (mkIngredientRow (nextRecipeId store)) := rfl
  have hins : (create_recipe store r src).2.instructions =
      store.instructions ++ mkInstructionRows (nextRecipeId store) r.instructions := rfl
  have hfilterOld : store.recipes.filter (fun rr => rr.id == nextRecipeId store) = [] := by
    rw [List.filter_eq_nil_iff]
    intro rr hrr
    simpa using Nat.ne_of_lt (recipeId_lt_next store rr hrr)
  have hgetfilter : (create_recipe store r src).2.recipes.filter
      (fun rr => rr.id == nextRecipeId store) = [mkRecipeRow (nextRecipeId store) r src] := by
    rw [hrec, List.filter_append, hfilterOld]
    simp [mkRecipeRow]
  have hingfilter : (create_recipe store r src).2.ingredients.filter
      (fun i => i.recipe_id == nextRecipeId store) =
      r.ingredients.map (mkIngredientRow (nextRecipeId store)) := by
    rw [hing, List.filter_append]
    have h1 : store.ingredients.filter (fun i => i.recipe_id == nextRecipeId store) = [] := by
      rw [List.filter_eq_nil_iff]
      intro ing hmem
      obtain ⟨rr, hrr, hid⟩ := hwf.1 ing hmem
      have hlt := Nat.ne_of_lt (recipeId_lt_next store rr hrr)
      rw [← hid]
      simpa using hlt
    have h2 : (r.ingredients.map (mkIngredientRow (nextRecipeId store))).filter
        (fun i => i.recipe_id == nextRecipeId store) =
        r.ingredients.map (mkIngredientRow (nextRecipeId store)) := by
      rw [List.filter_eq_self]
      intro row hrow
      obtain ⟨ing, _, rfl⟩ := List.mem_map.mp hrow
      simp [mkIngredientRow]
    rw [h1, h2]
    simp
  have hinsfilter : (create_recipe store r src).2.instructions.filter
      (fun i => i.recipe_id == nextRecipeId store) =
      mkInstructionRows (nextRecipeId store) r.instructions := by
    rw [hins, List.filter_append]
    have h1 : store.instructions.filter (fun i => i.recipe_id == nextRecipeId store) = [] := by
      rw [List.filter_eq_nil_iff]
      intro ins hmem
      obtain ⟨rr, hrr, hid⟩ := hwf.2 ins hmem
      have hlt := Nat.ne_of_lt (recipeId_lt_next store rr hrr)
      rw [← hid]
      simpa using hlt
    have h2 : (mkInstructionRows (nextRecipeId store) r.instructions).filter
        (fun i => i.recipe_id == nextRecipeId store) =
        mkInstructionRows (nextRecipeId store) r.instructions := by
      rw [List.filter_eq_self]
      intro row hrow
      obtain ⟨p, _, rfl⟩ := List.mem_map.mp hrow
      simp
    rw [h1, h2]
    simp
  have hget : get_recipe_by_id (create_recipe store r src).2 (nextRecipeId store) =
      some { row := mkRecipeRow (nextRecipeId store) r src
             ingredients := r.ingredients.map (mkIngredientRow (nextRecipeId store))
             instructions := mkInstructionRows (nextRecipeId store) r.instructions } := by
    unfold get_recipe_by_id
    rw [hgetfilter]
    show some (joinRecipeRow (create_recipe store r src).2
      (mkRecipeRow (nextRecipeId store) r src)) = _
    unfold joinRecipeRow
    simp only [show (mkRecipeRow (nextRecipeId store) r src).id = nextRecipeId store from rfl]
    rw [hingfilter, hinsfilter]
  refine ⟨_, ?_, hget, ?_, ?_, ?_⟩
  · exact hget
  · simp only [recipe_to_schema, sortByStep_mkInstructionRows]
    exact mkInstructionRows_texts _ _
  · simp only [recipe_to_schema, List.map_map]
    simp [Function.comp, mkIngredientRow]
  · exact mkInstructionRows_steps _ _

/-- C7 witness: round-trip of the concrete `sampleRecipe` through the empty
store. -/
theorem roundtrip_preserves_order_witness :
    ∃ db, (create_recipe emptyStore sampleRecipe none).1 = some db ∧
      get_recipe_by_id (create_recipe emptyStore sampleRecipe none).2
        (nextRecipeId emptyStore) = some db ∧
      (recipe_to_schema db).instructions = sampleRecipe.instructions ∧
      (recipe_to_schema db).ingredients.map (fun i => i.item) =
        sampleRecipe.ingredients.map (fun i => i.item) ∧
      db.instructions.map (fun i => i.step_number) =
        List.range' 1 sampleRecipe.instructions.length :=
  roundtrip_preserves_order emptyStore sampleRecipe none
    (by constructor <;> simp [emptyStore])

/-- C8: persistence parses each ingredient's display amount with the
best-effort `float()` conversion — the stored amount is exactly the parsed
number when the string parses, and exactly 0 when it does not — and in
either case the row is persisted (at its original position) with the
ingredient's name and unit intact; nothing is raised, nothing skipped. -/
theorem create_amount_best_effort (store : Store) (r : Recipe) (src : Option String)
    (i : Nat) (ing : Ingredient) (h : r.ingredients[i]? = some ing) :
    (create_recipe store r src).2.ingredients.length =
      store.ingredients.length + r.ingredients.length ∧
    ∃ row, (create_recipe store r src).2.ingredients[store.ingredients.length + i]? =
        some row ∧
      row.name = ing.item ∧ row.unit = ing.unit ∧ row.recipe_id = nextRecipeId store ∧
      (∀ q, pyFloat ing.amount = some q → row.amount = q) ∧
      (pyFloat ing.amount = none → row.amount = 0) := by
  have hing : (create_recipe store r src).2.ingredients =
      store.ingredients ++ r.ingredients.map (mkIngredientRow (nextRecipeId store)) := rfl
  constructor
  · rw [hing]
    simp
  · refine ⟨mkIngredientRow (nextRecipeId store) ing, ?_, rfl, rfl, rfl, ?_, ?_⟩
    · rw [hing, List.getElem?_append_right (Nat.le_add_right _ _)]
      rw [show store.ingredients.length + i - store.ingredients.length = i from by omega]
      rw [List.getElem?_map, h]
      rfl
    · intro q hq
      simp [mkIngredientRow, hq]
    · intro hq
      simp [mkIngredientRow, hq]

/-- C8 witness: the unparseable amount `"abc"` of `sampleRecipe`'s second
ingredient is stored as 0 with the name still persisted; the parseable
`"1"` of the first is stored as the number 1. -/
theorem create_amount_best_effort_witness :
    pyFloat "abc" = none ∧ pyFloat "1" = some 1 ∧
    (∃ row, (create_recipe emptyStore sampleRecipe none).2.ingredients[
        emptyStore.ingredients.length + 1]? = some row ∧
      row.name = "Soy Sauce" ∧ row.amount = 0) ∧
    (∃ row, (create_recipe emptyStore sampleRecipe none).2.ingredients[
        emptyStore.ingredients.length + 0]? = some row ∧
      row.name = "Rice" ∧ row.amount = 1) := by
  refine ⟨rfl, rfl, ?_, ?_⟩
  · obtain ⟨hlen, row, hrow, hname, hunit, hrid, hsome, hnone⟩ :=
      create_amount_best_effort emptyStore sampleRecipe none 1
        { item := "Soy Sauce", amount := "abc" } rfl
    exact ⟨row, hrow, hname, hnone rfl⟩
  · obtain ⟨hlen, row, hrow, hname, hunit, hrid, hsome, hnone⟩ :=
      create_amount_best_effort emptyStore sampleRecipe none 0
        { item := "Rice", amount := "1", unit := some "cup" } rfl
    exact ⟨row, hrow, hname, hsome 1 rfl⟩
